import Mathlib

/-!
Shallow embedding of the Trainer orchestration engine found in
omnivault/transformer/core/trainer.py: the callback registry
(add_callback, set_callback, remove_callback, trigger_callbacks) and the
training loop (_train_one_batch, train_one_epoch, _valid_one_batch,
valid_one_epoch, fit).

Opaque collaborators (model, criterion, optimizer, scheduler) are embedded
by their observable effects: each batch carries the batch size and the
mean-reduced loss value the criterion returns for it, while
optimizer.step and scheduler.step are invocation counters on the trainer
state. Event dispatch at the loop level is embedded as appending the
event name to a trace; the registry semantics of dispatch is embedded
separately and exactly, keyed on the signature check performed by
trigger_callbacks.
-/

set_option autoImplicit false

namespace OmniTrainer

abbrev Event := String

/-- Embedding of a Python callback object: cid stands for its object
identity, params lists the parameter names that inspect.signature
reports for it, and raises tells whether invoking it raises an
exception. -/
structure Callback where
  cid : Nat
  params : List String
  raises : Bool
deriving DecidableEq

/-- Record of one callback invocation: which callback ran, how many
positional arguments it received besides the trainer, and which keyword
arguments it received. -/
structure CallRecord where
  cid : Nat
  nargs : Nat
  kwargs : List String
deriving DecidableEq

/-- Embedding of the per-callback branch inside trigger_callbacks, lines
164 to 169: when every provided keyword is among the callback parameter
names, the callback receives the trainer, all positional arguments and
all keyword arguments; otherwise it is called with only the trainer. -/
def invokeRecord (nargs : Nat) (kwargs : List String) (cb : Callback) : CallRecord :=
  if kwargs.all (fun k => cb.params.contains k) then
    { cid := cb.cid, nargs := nargs, kwargs := kwargs }
  else
    { cid := cb.cid, nargs := 0, kwargs := [] }

/-- Spec reading of dispatch, kept separate from invokeRecord for
comparison: per-key partial delivery, in which a handler receives
exactly the subset of the keyword context whose keys it declares,
alongside the trainer and the positional arguments. -/
def specDispatchRecord (nargs : Nat) (kwargs : List String) (cb : Callback) : CallRecord :=
  { cid := cb.cid, nargs := nargs, kwargs := kwargs.filter (fun k => cb.params.contains k) }

/-- Embedding of the loop inside trigger_callbacks over the callbacks
registered for one event: callbacks run one at a time in list order,
each invocation is recorded, and a raising callback stops the loop with
its exception, reported as its cid. -/
def runCallbacks : List Callback → Nat → List String → List CallRecord × Option Nat
  | [], _, _ => ([], none)
  | cb :: rest, nargs, kwargs =>
    if cb.raises then ([invokeRecord nargs kwargs cb], some cb.cid)
    else
      let r := runCallbacks rest nargs kwargs
      (invokeRecord nargs kwargs cb :: r.1, r.2)

/-- Embedding of self.callbacks, a defaultdict from event name to the
list of callbacks registered for it, as an association list. -/
abbrev Registry := List (Event × List Callback)

/-- Lookup in the registry: the defaultdict returns the stored list, or
the empty list for an event that has no entry. -/
def getCallbacks : Registry → Event → List Callback
  | [], _ => []
  | (e2, l) :: rest, e => if e2 = e then l else getCallbacks rest e

/-- Store a list under an event name, replacing the existing entry or
appending a fresh one. -/
def setEntry : Registry → Event → List Callback → Registry
  | [], e, cbs => [(e, cbs)]
  | (e2, l) :: rest, e, cbs =>
    if e2 = e then (e, cbs) :: rest else (e2, l) :: setEntry rest e cbs

/-- Embedding of add_callback, line 152: append the callback to the list
for the event. -/
def add_callback (reg : Registry) (e : Event) (cb : Callback) : Registry :=
  setEntry reg e (getCallbacks reg e ++ [cb])

/-- Embedding of set_callback, line 156: the list for the event becomes
the single given callback. -/
def set_callback (reg : Registry) (e : Event) (cb : Callback) : Registry :=
  setEntry reg e [cb]

/-- Embedding of Python list.remove on the callback list: remove the
first element equal to the argument, or report failure when none
matches. -/
def removeFirst : List Callback → Callback → Option (List Callback)
  | [], _ => none
  | c :: rest, cb =>
    if c = cb then some rest else (removeFirst rest cb).map (fun l => c :: l)

/-- Embedding of remove_callback, line 160: the defaultdict access first
materialises an entry for the event, then list.remove removes the first
matching callback and raises when none matches; the error is surfaced as
the string NotFoundError. Returns the registry after the call together
with the error, if any. -/
def remove_callback (reg : Registry) (e : Event) (cb : Callback) :
    Registry × Option String :=
  match removeFirst (getCallbacks reg e) cb with
  | some l => (setEntry reg e l, none)
  | none => (setEntry reg e (getCallbacks reg e), some "NotFoundError")

/-- Embedding of trigger_callbacks, lines 162 to 169, at the registry
level: run the callbacks registered for the event, in order, with the
given positional argument count and keyword names. -/
def trigger_callbacks (reg : Registry) (e : Event) (nargs : Nat) (kwargs : List String) :
    List CallRecord × Option Nat :=
  runCallbacks (getCallbacks reg e) nargs kwargs

/-- Observable trainer state threaded through the loop embedding:
epoch_index and batch_index as in the constructor, invocation counters
for the opaque scheduler.step and optimizer.step effects, the
train-versus-eval mode flag of the model, metrics_dict as an association
list, and the trace of dispatched event names. -/
structure TrainerState where
  epoch_index : Nat
  batch_index : Nat
  scheduler_steps : Nat
  optimizer_steps : Nat
  model_training_mode : Bool
  metrics_dict : List (String × Rat)
  events : List String
deriving DecidableEq

/-- Configuration fields of the Composer that the loop reads. -/
structure TrainerCfg where
  max_epochs : Nat
  log_every_n_steps : Nat
  has_scheduler : Bool
  step_scheduler_on_batch_or_epoch : String
  clip_grad_norm : Bool
deriving DecidableEq

/-- Embedding of one yielded batch by its observable contribution: the
leading-dimension size of its tensors and the mean-reduced loss the
criterion produces on it. -/
structure Batch where
  size : Nat
  avg_loss : Rat
deriving DecidableEq

/-- Loop-level view of dispatching one event: the event name is appended
to the trace; effects of the registered handlers themselves are outside
the loop embedding. -/
def recordEvent (s : TrainerState) (e : String) : TrainerState :=
  { s with events := s.events ++ [e] }

/-- Embedding of update_metrics, lines 171 to 172: last write wins on
the metric key. -/
def setMetric : List (String × Rat) → String → Rat → List (String × Rat)
  | [], k, v => [(k, v)]
  | (k2, v2) :: rest, k, v =>
    if k2 = k then (k, v) :: rest else (k2, v2) :: setMetric rest k v

/-- Lookup of a metric value by key. -/
def lookupMetric : List (String × Rat) → String → Option Rat
  | [], _ => none
  | (k2, v) :: rest, k => if k2 = k then some v else lookupMetric rest k

/-- Trainer method update_metrics on the state embedding. -/
def update_metrics (s : TrainerState) (name : String) (value : Rat) : TrainerState :=
  { s with metrics_dict := setMetric s.metrics_dict name value }

/-- Trainer attributes as the constructor leaves them, lines 130 to 138:
epoch_index 0, batch_index 0, empty metrics dictionary; the opaque step
counters start at zero, a fresh torch module is in training mode, and no
event has been dispatched yet. -/
def initTrainerState : TrainerState :=
  { epoch_index := 0
    batch_index := 0
    scheduler_steps := 0
    optimizer_steps := 0
    model_training_mode := true
    metrics_dict := []
    events := [] }

/-- Number of scheduler.step calls performed inside _train_one_batch,
lines 194 to 196: one call when a scheduler is configured and the
stepping granularity is batch, none otherwise. -/
def batchSchedInc (cfg : TrainerCfg) : Nat :=
  if cfg.has_scheduler && (cfg.step_scheduler_on_batch_or_epoch == "batch") then 1 else 0

/-- Number of scheduler.step calls performed by the statement at lines
270 to 271 of train_one_epoch, which sits inside the batch loop: one
call per batch when a scheduler is configured and the stepping
granularity is epoch. -/
def epochSchedIncInLoop (cfg : TrainerCfg) : Nat :=
  if cfg.has_scheduler && (cfg.step_scheduler_on_batch_or_epoch == "epoch") then 1 else 0

/-- Embedding of _train_one_batch, lines 174 to 200: dispatch
on_train_batch_start, read the batch size, run the opaque forward,
backward and loss computation, step the optimizer, step the scheduler
when the granularity is batch, increment batch_index, dispatch
on_train_batch_end, and return the batch average loss together with the
batch total loss, which is the average multiplied by the batch size. -/
def _train_one_batch (cfg : TrainerCfg) (s : TrainerState) (b : Batch) :
    TrainerState × Rat × Rat :=
  let s1 := recordEvent s "on_train_batch_start"
  let this_batch_average_loss : Rat := b.avg_loss
  let this_batch_total_loss : Rat := this_batch_average_loss * (b.size : Rat)
  let s2 := { s1 with optimizer_steps := s1.optimizer_steps + 1 }
  let s3 := { s2 with scheduler_steps := s2.scheduler_steps + batchSchedInc cfg }
  let s4 := { s3 with batch_index := s3.batch_index + 1 }
  let s5 := recordEvent s4 "on_train_batch_end"
  (s5, this_batch_average_loss, this_batch_total_loss)

/-- Body of the batch loop of train_one_epoch, lines 251 to 271:
accumulate total_samples, run _train_one_batch, accumulate the running
loss, emit the progress log (no state effect), and run the lines 270 to
271 statement, which steps the scheduler inside the loop when the
granularity is epoch. -/
def trainEpochStep (cfg : TrainerCfg) (acc : TrainerState × Nat × Rat) (b : Batch) :
    TrainerState × Nat × Rat :=
  let total_samples := acc.2.1 + b.size
  let r := _train_one_batch cfg acc.1 b
  let running := acc.2.2 + r.2.2
  let s2 := { r.1 with scheduler_steps := r.1.scheduler_steps + epochSchedIncInLoop cfg }
  (s2, total_samples, running)

/-- Embedding of train_one_epoch, lines 202 to 276: dispatch
on_train_epoch_start, put the model in training mode, run the batch
loop, divide the running loss by total_samples, which raises
ZeroDivisionError when total_samples is zero, record the metric under
train_this_epoch_average_loss, dispatch on_train_epoch_end and return
the epoch average loss. -/
def train_one_epoch (cfg : TrainerCfg) (s : TrainerState) (dataloader : List Batch) :
    Except String (TrainerState × Rat) :=
  let s1 := recordEvent s "on_train_epoch_start"
  let s2 := { s1 with model_training_mode := true }
  let acc := dataloader.foldl (trainEpochStep cfg) (s2, 0, 0)
  if acc.2.1 = 0 then Except.error "DivisionError"
  else
    let this_epoch_average_loss := acc.2.2 / (acc.2.1 : Rat)
    let s3 := update_metrics acc.1 "train_this_epoch_average_loss" this_epoch_average_loss
    let s4 := recordEvent s3 "on_train_epoch_end"
    Except.ok (s4, this_epoch_average_loss)

/-- Embedding of _valid_one_batch, lines 278 to 297: dispatch
on_valid_batch_start, run the opaque no-grad forward and loss
computation, dispatch on_valid_batch_end; no optimizer step, no
scheduler step, no batch_index increment. -/
def _valid_one_batch (s : TrainerState) (b : Batch) : TrainerState × Rat × Rat :=
  let s1 := recordEvent s "on_valid_batch_start"
  let this_batch_average_loss : Rat := b.avg_loss
  let this_batch_total_loss : Rat := this_batch_average_loss * (b.size : Rat)
  let s2 := recordEvent s1 "on_valid_batch_end"
  (s2, this_batch_average_loss, this_batch_total_loss)

/-- Body of the batch loop of valid_one_epoch, lines 327 to 331. -/
def validEpochStep (acc : TrainerState × Nat × Rat) (b : Batch) :
    TrainerState × Nat × Rat :=
  let total_samples := acc.2.1 + b.size
  let r := _valid_one_batch acc.1 b
  (r.1, total_samples, acc.2.2 + r.2.2)

/-- Embedding of valid_one_epoch, lines 299 to 337: dispatch
on_valid_epoch_start, put the model in eval mode, run the batch loop,
divide by total_samples, which raises ZeroDivisionError when
total_samples is zero, record the metric under
valid_this_epoch_average_loss, dispatch on_valid_epoch_end and return
the epoch average loss. -/
def valid_one_epoch (s : TrainerState) (dataloader : List Batch) :
    Except String (TrainerState × Rat) :=
  let s1 := recordEvent s "on_valid_epoch_start"
  let s2 := { s1 with model_training_mode := false }
  let acc := dataloader.foldl validEpochStep (s2, 0, 0)
  if acc.2.1 = 0 then Except.error "DivisionError"
  else
    let this_epoch_average_loss := acc.2.2 / (acc.2.1 : Rat)
    let s3 := update_metrics acc.1 "valid_this_epoch_average_loss" this_epoch_average_loss
    let s4 := recordEvent s3 "on_valid_epoch_end"
    Except.ok (s4, this_epoch_average_loss)

/-- Embedding of the optional evaluation passes of fit, lines 366 to
370: a Python DataLoader is truthy exactly when it is present and
nonempty, and in that case the pass runs valid_one_epoch. -/
def runEvalIfTruthy (s : TrainerState) (loader : Option (List Batch)) :
    Except String TrainerState :=
  match loader with
  | none => Except.ok s
  | some l =>
    if l.isEmpty then Except.ok s
    else
      match valid_one_epoch s l with
      | Except.error err => Except.error err
      | Except.ok p => Except.ok p.1

/-- Embedding of the epoch loop of fit, lines 362 to 370: each iteration
first increments epoch_index, then runs a training epoch, then the
optional validation pass, then the optional test pass, which also goes
through valid_one_epoch. -/
def fitLoop (cfg : TrainerCfg) (train_loader : List Batch)
    (valid_loader test_loader : Option (List Batch)) :
    Nat → TrainerState → Except String TrainerState
  | 0, s => Except.ok s
  | Nat.succ n, s =>
    let s1 := { s with epoch_index := s.epoch_index + 1 }
    match train_one_epoch cfg s1 train_loader with
    | Except.error err => Except.error err
    | Except.ok p =>
      match runEvalIfTruthy p.1 valid_loader with
      | Except.error err => Except.error err
      | Except.ok s2 =>
        match runEvalIfTruthy s2 test_loader with
        | Except.error err => Except.error err
        | Except.ok s3 => fitLoop cfg train_loader valid_loader test_loader n s3

/-- Embedding of fit, lines 348 to 373: dispatch on_fit_start, run
max_epochs iterations of the epoch loop, dispatch on_fit_end and return
the mutated state. -/
def fit (cfg : TrainerCfg) (s : TrainerState) (train_loader : List Batch)
    (valid_loader test_loader : Option (List Batch)) : Except String TrainerState :=
  let s1 := recordEvent s "on_fit_start"
  match fitLoop cfg train_loader valid_loader test_loader cfg.max_epochs s1 with
  | Except.error err => Except.error err
  | Except.ok s2 => Except.ok (recordEvent s2 "on_fit_end")

/-- Sum of the batch sizes of a dataloader, the total_samples of an
epoch over it. -/
def sumSizes (bs : List Batch) : Nat := (bs.map (fun b => b.size)).sum

/-- Sum over the batches of the batch average loss multiplied by the
batch size. -/
def sumTotalLoss (bs : List Batch) : Rat :=
  (bs.map (fun b => b.avg_loss * (b.size : Rat))).sum

/-- Size-weighted average loss of a dataloader. -/
def wavg (bs : List Batch) : Rat := sumTotalLoss bs / (sumSizes bs : Rat)

/-- Total scheduler.step calls per training batch: the batch-granularity
call inside _train_one_batch plus the call at lines 270 to 271 of the
epoch loop. -/
def schedIncPerTrainBatch (cfg : TrainerCfg) : Nat :=
  batchSchedInc cfg + epochSchedIncInLoop cfg

/-- Event trace contributed by the per-batch dispatches of one epoch:
one start and one end event per yielded batch. -/
def batchPairTrace (a b : String) : List Batch → List String
  | [] => []
  | _ :: rest => a :: b :: batchPairTrace a b rest

/-- Full event trace of a successful training epoch over bs. -/
def trainEpochTrace (bs : List Batch) : List String :=
  "on_train_epoch_start"
    :: (batchPairTrace "on_train_batch_start" "on_train_batch_end" bs
        ++ ["on_train_epoch_end"])

/-- Full event trace of a successful validation-path epoch over bs. -/
def validEpochTrace (bs : List Batch) : List String :=
  "on_valid_epoch_start"
    :: (batchPairTrace "on_valid_batch_start" "on_valid_batch_end" bs
        ++ ["on_valid_epoch_end"])

/-- Event trace of one fit iteration with both a validation and a test
loader: a training epoch, then a validation-path epoch over the
validation loader, then a validation-path epoch over the test loader. -/
def fitEpochBlockTrace (tr va te : List Batch) : List String :=
  trainEpochTrace tr ++ validEpochTrace va ++ validEpochTrace te

/-- Concatenation of n copies of a trace. -/
def repeatTrace (t : List String) : Nat → List String
  | 0 => []
  | Nat.succ n => t ++ repeatTrace t n

/-- Metric updates performed by one fit iteration with both a validation
and a test loader: the training metric, then the validation metric from
the validation pass, then the validation metric again from the test
pass. -/
def epochMetricsUpdate (tr va te : List Batch) (m : List (String × Rat)) :
    List (String × Rat) :=
  setMetric
    (setMetric (setMetric m "train_this_epoch_average_loss" (wavg tr))
      "valid_this_epoch_average_loss" (wavg va))
    "valid_this_epoch_average_loss" (wavg te)

/-- Closed form of the state after n successful fit iterations with both
a validation and a test loader. -/
def fitLoopResult (cfg : TrainerCfg) (tr va te : List Batch) (n : Nat)
    (s : TrainerState) : TrainerState :=
  { epoch_index := s.epoch_index + n
    batch_index := s.batch_index + n * tr.length
    scheduler_steps := s.scheduler_steps + n * (schedIncPerTrainBatch cfg * tr.length)
    optimizer_steps := s.optimizer_steps + n * tr.length
    model_training_mode := if n = 0 then s.model_training_mode else false
    metrics_dict := (epochMetricsUpdate tr va te)^[n] s.metrics_dict
    events := s.events ++ repeatTrace (fitEpochBlockTrace tr va te) n }

/-- Callback used in the counterexample dispatches: it declares the
keyword phase but not the keyword extra. -/
def cbPhaseOnly : Callback :=
  { cid := 7, params := ["trainer", "phase"], raises := false }

/-- Configuration with a scheduler and epoch stepping granularity. -/
def cfgSchedEpoch : TrainerCfg :=
  { max_epochs := 1
    log_every_n_steps := 1
    has_scheduler := true
    step_scheduler_on_batch_or_epoch := "epoch"
    clip_grad_norm := false }

/-- Configuration without a scheduler, running two epochs, used by the
concrete witnesses. -/
def cfgTwoEpochs : TrainerCfg :=
  { max_epochs := 2
    log_every_n_steps := 1
    has_scheduler := false
    step_scheduler_on_batch_or_epoch := "epoch"
    clip_grad_norm := false }

/-- Lookup after setEntry: the written event now maps to the new list,
every other event is untouched. -/
theorem getCallbacks_setEntry (reg : Registry) (e e2 : Event) (l : List Callback) :
    getCallbacks (setEntry reg e l) e2 = if e2 = e then l else getCallbacks reg e2 := by
  induction reg with
  | nil =>
    by_cases h : e2 = e <;> simp [setEntry, getCallbacks, h, Ne.symm]
  | cons hd tl ih =>
    obtain ⟨e3, l3⟩ := hd
    by_cases h3 : e3 = e
    · subst h3
      by_cases h : e2 = e3
      · simp [setEntry, getCallbacks, h]
      · have h2 : ¬ e3 = e2 := fun hh => h hh.symm
        simp [setEntry, getCallbacks, h, h2]
    · by_cases h : e2 = e3
      · simp [setEntry, getCallbacks, h3, h]
      · have h2 : ¬ e3 = e2 := fun hh => h hh.symm
        simp [setEntry, getCallbacks, h3, h, h2, ih]

/-- Dispatch over a list of callbacks none of which raises: every
callback is invoked, in list order. -/
theorem runCallbacks_no_raise (nargs : Nat) (ks : List String) :
    ∀ cbs : List Callback, (∀ cb ∈ cbs, cb.raises = false) →
      runCallbacks cbs nargs ks = (cbs.map (invokeRecord nargs ks), none) := by
  intro cbs
  induction cbs with
  | nil => intro _; rfl
  | cons cb rest ih =>
    intro h
    have hcb : cb.raises = false := h cb (by simp)
    have hrest : ∀ c ∈ rest, c.raises = false := fun c hc => h c (by simp [hc])
    simp [runCallbacks, hcb, ih hrest]

/-- Dispatch over a list whose first raising callback is bad: the
callbacks before bad run in order, bad runs and its exception stops the
loop, and no callback after bad runs. -/
theorem runCallbacks_failfast (nargs : Nat) (ks : List String) :
    ∀ (pre : List Callback) (bad : Callback) (post : List Callback),
      (∀ cb ∈ pre, cb.raises = false) → bad.raises = true →
      runCallbacks (pre ++ bad :: post) nargs ks
        = (pre.map (invokeRecord nargs ks) ++ [invokeRecord nargs ks bad], some bad.cid) := by
  intro pre
  induction pre with
  | nil =>
    intro bad post _ hbad
    simp [runCallbacks, hbad]
  | cons cb rest ih =>
    intro bad post h hbad
    have hcb : cb.raises = false := h cb (by simp)
    simp [runCallbacks, hcb, ih bad post (fun c hc => h c (by simp [hc])) hbad]

/-- Python list.remove finds nothing when the element is absent. -/
theorem removeFirst_eq_none_of_not_mem (l : List Callback) (cb : Callback) (h : cb ∉ l) :
    removeFirst l cb = none := by
  induction l with
  | nil => rfl
  | cons c rest ih =>
    have hne : ¬ c = cb := fun hc => h (by simp [hc])
    have hr : cb ∉ rest := fun hc => h (by simp [hc])
    simp [removeFirst, hne, ih hr]

/-- Claim C2 fails on the code: a handler that declares the keyword
phase but not the keyword extra is invoked with only the trainer when
the dispatched context carries both keywords and one positional
argument; the claim requires it to receive the positional argument and
the declared keyword phase, dropping extra alone. -/
theorem C2_counterexample_all_context_dropped :
    (trigger_callbacks (add_callback [] "on_train_epoch_end" cbPhaseOnly)
        "on_train_epoch_end" 1 ["phase", "extra"]).1
      ≠ [specDispatchRecord 1 ["phase", "extra"] cbPhaseOnly] := by
  decide

/-- Claim C2 amended: context delivery is all-or-nothing per handler: a
handler declaring every provided keyword receives the trainer, all
positional arguments and the whole keyword context, and a handler
missing any provided keyword receives only the trainer, with every
keyword and every positional argument dropped. Stated for a dispatch in
which no registered handler raises. -/
theorem C2_context_delivery_all_or_nothing (reg : Registry) (e : Event)
    (nargs : Nat) (ks : List String)
    (h : ∀ cb ∈ getCallbacks reg e, cb.raises = false) :
    (trigger_callbacks reg e nargs ks).1
      = (getCallbacks reg e).map (fun cb =>
          if ks.all (fun k => cb.params.contains k) then
            { cid := cb.cid, nargs := nargs, kwargs := ks }
          else
            { cid := cb.cid, nargs := 0, kwargs := [] }) := by
  rw [trigger_callbacks, runCallbacks_no_raise nargs ks (getCallbacks reg e) h]
  simp [invokeRecord]

/-- Witness for the amended claim C2 at a concrete registry: the handler
declaring phase but not extra receives neither keyword and no positional
argument. -/
theorem C2_context_delivery_witness :
    (∀ cb ∈ getCallbacks (add_callback [] "on_fit_start" cbPhaseOnly) "on_fit_start",
        cb.raises = false)
    ∧ (trigger_callbacks (add_callback [] "on_fit_start" cbPhaseOnly)
          "on_fit_start" 1 ["phase", "extra"]).1
        = [{ cid := 7, nargs := 0, kwargs := [] }] :=
  ⟨by decide, by
    rw [C2_context_delivery_all_or_nothing _ _ _ _ (by decide)]
    decide⟩

/-- Claim C3: removing a callback that is not registered for the event
fails with NotFoundError, and afterwards every event still maps to the
same handler list, so any subsequent dispatch invokes exactly the same
handlers with the same outcome. -/
theorem C3_remove_absent_callback (reg : Registry) (e : Event) (cb : Callback)
    (h : cb ∉ getCallbacks reg e) :
    (remove_callback reg e cb).2 = some "NotFoundError"
    ∧ (∀ e2, getCallbacks (remove_callback reg e cb).1 e2 = getCallbacks reg e2)
    ∧ (∀ e2 nargs ks, trigger_callbacks (remove_callback reg e cb).1 e2 nargs ks
        = trigger_callbacks reg e2 nargs ks) := by
  have hnone := removeFirst_eq_none_of_not_mem (getCallbacks reg e) cb h
  have hreg : ∀ e2, getCallbacks (remove_callback reg e cb).1 e2 = getCallbacks reg e2 := by
    intro e2
    rw [remove_callback, hnone]
    rw [getCallbacks_setEntry]
    by_cases h2 : e2 = e <;> simp [h2]
  refine ⟨by rw [remove_callback, hnone], hreg, ?_⟩
  intro e2 nargs ks
  rw [trigger_callbacks, trigger_callbacks, hreg e2]

/-- Witness for claim C3 at a concrete registry holding one callback:
removing a different callback fails with NotFoundError and dispatch
still invokes exactly the registered callback. -/
theorem C3_remove_absent_witness :
    ((⟨9, ["trainer"], false⟩ : Callback)
        ∉ getCallbacks (add_callback [] "on_fit_start" cbPhaseOnly) "on_fit_start")
    ∧ (remove_callback (add_callback [] "on_fit_start" cbPhaseOnly) "on_fit_start"
          ⟨9, ["trainer"], false⟩).2 = some "NotFoundError"
    ∧ getCallbacks (remove_callback (add_callback [] "on_fit_start" cbPhaseOnly)
          "on_fit_start" ⟨9, ["trainer"], false⟩).1 "on_fit_start" = [cbPhaseOnly] :=
  ⟨by decide,
    (C3_remove_absent_callback _ _ _ (by decide)).1,
    by
      rw [(C3_remove_absent_callback (add_callback [] "on_fit_start" cbPhaseOnly)
        "on_fit_start" ⟨9, ["trainer"], false⟩ (by decide)).2.1 "on_fit_start"]
      decide⟩

/-- Claim C7: register appends to the ordered handler list of an event;
dispatch invokes the registered handlers one at a time in registration
order; and when a handler raises, the exception propagates immediately
and no later handler registered for the event is invoked in that
dispatch. -/
theorem C7_dispatch_in_order_failfast (nargs : Nat) (ks : List String) :
    (∀ (reg : Registry) (e : Event) (cb : Callback),
        getCallbacks (add_callback reg e cb) e = getCallbacks reg e ++ [cb])
    ∧ (∀ cbs : List Callback, (∀ cb ∈ cbs, cb.raises = false) →
        runCallbacks cbs nargs ks = (cbs.map (invokeRecord nargs ks), none))
    ∧ (∀ (pre : List Callback) (bad : Callback) (post : List Callback),
        (∀ cb ∈ pre, cb.raises = false) → bad.raises = true →
        runCallbacks (pre ++ bad :: post) nargs ks
          = (pre.map (invokeRecord nargs ks) ++ [invokeRecord nargs ks bad], some bad.cid)) := by
  refine ⟨?_, runCallbacks_no_raise nargs ks, runCallbacks_failfast nargs ks⟩
  intro reg e cb
  rw [add_callback, getCallbacks_setEntry]
  simp

/-- Witness for claim C7: with a raising callback in the middle of three
registered callbacks, the first two are invoked in order, the exception
of the second propagates, and the third is never invoked. -/
theorem C7_dispatch_in_order_failfast_witness :
    (∀ cb ∈ [(⟨1, ["trainer"], false⟩ : Callback)], cb.raises = false)
    ∧ runCallbacks
        ([⟨1, ["trainer"], false⟩] ++ ⟨2, ["trainer"], true⟩ :: [⟨3, ["trainer"], false⟩]) 0 []
        = ([⟨1, 0, []⟩, ⟨2, 0, []⟩], some 2) :=
  ⟨by decide, by
    rw [(C7_dispatch_in_order_failfast 0 []).2.2 [⟨1, ["trainer"], false⟩]
      ⟨2, ["trainer"], true⟩ [⟨3, ["trainer"], false⟩] (by decide) rfl]
    decide⟩

/-- Claim C10: dispatching any event name with no registered handler,
including arbitrary strings outside the documented event set, returns
normally with no handler invoked and no error; and register and replace
accept the same arbitrary event name without validation. -/
theorem C10_dispatch_unregistered_event (reg : Registry) (e : Event)
    (nargs : Nat) (ks : List String) (h : getCallbacks reg e = []) :
    trigger_callbacks reg e nargs ks = ([], none)
    ∧ (∀ cb, getCallbacks (add_callback reg e cb) e = getCallbacks reg e ++ [cb])
    ∧ (∀ cb, getCallbacks (set_callback reg e cb) e = [cb]) := by
  refine ⟨by rw [trigger_callbacks, h]; rfl, ?_, ?_⟩
  · intro cb
    rw [add_callback, getCallbacks_setEntry]
    simp
  · intro cb
    rw [set_callback, getCallbacks_setEntry]
    simp

/-- Witness for claim C10 on a fresh registry and an event name far
outside the documented event set. -/
theorem C10_dispatch_unregistered_witness :
    getCallbacks [] "definitely_not_a_documented_event" = []
    ∧ trigger_callbacks [] "definitely_not_a_documented_event" 0 ["phase"] = ([], none) :=
  ⟨rfl, (C10_dispatch_unregistered_event [] "definitely_not_a_documented_event" 0 ["phase"] rfl).1⟩

/-- Sum of sizes over a cons cell. -/
theorem sumSizes_cons (b : Batch) (bs : List Batch) :
    sumSizes (b :: bs) = b.size + sumSizes bs := by
  simp [sumSizes]

/-- Sum of per-batch total losses over a cons cell. -/
theorem sumTotalLoss_cons (b : Batch) (bs : List Batch) :
    sumTotalLoss (b :: bs) = b.avg_loss * (b.size : Rat) + sumTotalLoss bs := by
  simp [sumTotalLoss]

/-- Closed form of one training batch: the two batch events are
appended, the optimizer steps once, the scheduler steps batchSchedInc
times, batch_index rises by one, and the returned pair is the batch
average loss and the size-weighted batch total loss. -/
theorem train_one_batch_eq (cfg : TrainerCfg) (s : TrainerState) (b : Batch) :
    _train_one_batch cfg s b
      = ({ s with
            events := s.events ++ ["on_train_batch_start", "on_train_batch_end"]
            optimizer_steps := s.optimizer_steps + 1
            scheduler_steps := s.scheduler_steps + batchSchedInc cfg
            batch_index := s.batch_index + 1 },
         b.avg_loss, b.avg_loss * (b.size : Rat)) := by
  simp [_train_one_batch, recordEvent]

/-- Closed form of one iteration of the training batch loop, including
the lines 270 to 271 scheduler step that sits inside the loop. -/
theorem trainEpochStep_eq (cfg : TrainerCfg) (s : TrainerState) (n : Nat) (r : Rat)
    (b : Batch) :
    trainEpochStep cfg (s, n, r) b
      = ({ s with
            events := s.events ++ ["on_train_batch_start", "on_train_batch_end"]
            optimizer_steps := s.optimizer_steps + 1
            scheduler_steps := s.scheduler_steps + schedIncPerTrainBatch cfg
            batch_index := s.batch_index + 1 },
         n + b.size, r + b.avg_loss * (b.size : Rat)) := by
  simp [trainEpochStep, train_one_batch_eq, schedIncPerTrainBatch, Nat.add_assoc]

/-- Closed form of the whole training batch loop. -/
theorem trainEpochFold_eq (cfg : TrainerCfg) :
    ∀ (bs : List Batch) (s : TrainerState) (n : Nat) (r : Rat),
      bs.foldl (trainEpochStep cfg) (s, n, r)
        = ({ s with
              events := s.events
                ++ batchPairTrace "on_train_batch_start" "on_train_batch_end" bs
              optimizer_steps := s.optimizer_steps + bs.length
              scheduler_steps := s.scheduler_steps + schedIncPerTrainBatch cfg * bs.length
              batch_index := s.batch_index + bs.length },
           n + sumSizes bs, r + sumTotalLoss bs) := by
  intro bs
  induction bs with
  | nil =>
    intro s n r
    simp [batchPairTrace, sumSizes, sumTotalLoss]
  | cons b rest ih =>
    intro s n r
    rw [List.foldl_cons, trainEpochStep_eq, ih]
    simp only [batchPairTrace, sumSizes_cons, sumTotalLoss_cons, List.length_cons,
      TrainerState.mk.injEq, Prod.mk.injEq, List.append_assoc, List.cons_append,
      List.nil_append]
    repeat' apply And.intro
    all_goals first | rfl | ring1 | trivial

/-- Closed form of a successful training epoch: all its events are
appended in order, the model ends in training mode, the per-batch
counters advance by the number of batches, and the metric
train_this_epoch_average_loss is set to the size-weighted average loss,
which is also returned. -/
theorem train_one_epoch_ok (cfg : TrainerCfg) (s : TrainerState) (bs : List Batch)
    (h : 0 < sumSizes bs) :
    train_one_epoch cfg s bs
      = Except.ok
          ({ s with
              events := s.events ++ trainEpochTrace bs
              model_training_mode := true
              optimizer_steps := s.optimizer_steps + bs.length
              scheduler_steps := s.scheduler_steps + schedIncPerTrainBatch cfg * bs.length
              batch_index := s.batch_index + bs.length
              metrics_dict := setMetric s.metrics_dict "train_this_epoch_average_loss" (wavg bs) },
            wavg bs) := by
  have hz : ¬ sumSizes bs = 0 := Nat.pos_iff_ne_zero.mp h
  simp only [train_one_epoch, recordEvent, trainEpochFold_eq, update_metrics,
    Nat.zero_add, zero_add, hz, if_false, ite_false, wavg, trainEpochTrace]
  simp [List.append_assoc]

/-- Closed form of one validation batch: only the two batch events are
appended; no counter moves. -/
theorem valid_one_batch_eq (s : TrainerState) (b : Batch) :
    _valid_one_batch s b
      = ({ s with events := s.events ++ ["on_valid_batch_start", "on_valid_batch_end"] },
         b.avg_loss, b.avg_loss * (b.size : Rat)) := by
  simp [_valid_one_batch, recordEvent]

/-- Closed form of the whole validation batch loop. -/
theorem validEpochFold_eq :
    ∀ (bs : List Batch) (s : TrainerState) (n : Nat) (r : Rat),
      bs.foldl validEpochStep (s, n, r)
        = ({ s with
              events := s.events
                ++ batchPairTrace "on_valid_batch_start" "on_valid_batch_end" bs },
           n + sumSizes bs, r + sumTotalLoss bs) := by
  intro bs
  induction bs with
  | nil =>
    intro s n r
    simp [batchPairTrace, sumSizes, sumTotalLoss]
  | cons b rest ih =>
    intro s n r
    rw [List.foldl_cons]
    rw [show validEpochStep (s, n, r) b
      = ({ s with events := s.events ++ ["on_valid_batch_start", "on_valid_batch_end"] },
         n + b.size, r + b.avg_loss * (b.size : Rat)) from by
        simp [validEpochStep, valid_one_batch_eq]]
    rw [ih]
    simp only [batchPairTrace, sumSizes_cons, sumTotalLoss_cons,
      TrainerState.mk.injEq, Prod.mk.injEq, List.append_assoc, List.cons_append,
      List.nil_append]
    repeat' apply And.intro
    all_goals first | rfl | ring1 | trivial

/-- Closed form of a successful validation-path epoch: its events are
appended in order, the model ends in eval mode, batch_index and the step
counters are untouched, and the metric valid_this_epoch_average_loss is
set to the size-weighted average loss, which is also returned. -/
theorem valid_one_epoch_ok (s : TrainerState) (bs : List Batch)
    (h : 0 < sumSizes bs) :
    valid_one_epoch s bs
      = Except.ok
          ({ s with
              events := s.events ++ validEpochTrace bs
              model_training_mode := false
              metrics_dict := setMetric s.metrics_dict "valid_this_epoch_average_loss" (wavg bs) },
            wavg bs) := by
  have hz : ¬ sumSizes bs = 0 := Nat.pos_iff_ne_zero.mp h
  simp only [valid_one_epoch, recordEvent, validEpochFold_eq, update_metrics,
    Nat.zero_add, zero_add, hz, if_false, ite_false, wavg, validEpochTrace]
  simp [List.append_assoc]

/-- A loader with positive total sample count is nonempty, hence truthy
as a Python DataLoader. -/
theorem ne_nil_of_sumSizes_pos (bs : List Batch) (h : 0 < sumSizes bs) : bs ≠ [] := by
  intro hnil
  rw [hnil] at h
  simp [sumSizes] at h

/-- Closed form of a truthy optional evaluation pass inside fit. -/
theorem runEvalIfTruthy_some (s : TrainerState) (va : List Batch)
    (h : 0 < sumSizes va) :
    runEvalIfTruthy s (some va)
      = Except.ok
          ({ s with
              events := s.events ++ validEpochTrace va
              model_training_mode := false
              metrics_dict := setMetric s.metrics_dict "valid_this_epoch_average_loss" (wavg va) }) := by
  have hne : va ≠ [] := ne_nil_of_sumSizes_pos va h
  simp [runEvalIfTruthy, List.isEmpty_iff, hne, valid_one_epoch_ok s va h]

/-- Shifting one successful fit iteration into the closed form of the
epoch loop. -/
theorem fitLoopResult_shift (cfg : TrainerCfg) (tr va te : List Batch) (n : Nat)
    (s : TrainerState) :
    fitLoopResult cfg tr va te n
      { epoch_index := s.epoch_index + 1
        batch_index := s.batch_index + tr.length
        scheduler_steps := s.scheduler_steps + schedIncPerTrainBatch cfg * tr.length
        optimizer_steps := s.optimizer_steps + tr.length
        model_training_mode := false
        metrics_dict := epochMetricsUpdate tr va te s.metrics_dict
        events := s.events ++ fitEpochBlockTrace tr va te }
      = fitLoopResult cfg tr va te (n + 1) s := by
  simp only [fitLoopResult, TrainerState.mk.injEq, repeatTrace,
    Function.iterate_succ_apply, List.append_assoc]
  repeat' apply And.intro
  all_goals first | rfl | ring1 | simp [ite_self, show ¬ 1 + n = 0 from by omega]

/-- Closed form of n successful fit iterations with both a validation
and a test loader whose sample counts are positive. -/
theorem fitLoop_ok (cfg : TrainerCfg) (tr va te : List Batch)
    (htr : 0 < sumSizes tr) (hva : 0 < sumSizes va) (hte : 0 < sumSizes te) :
    ∀ (n : Nat) (s : TrainerState),
      fitLoop cfg tr (some va) (some te) n s
        = Except.ok (fitLoopResult cfg tr va te n s) := by
  intro n
  induction n with
  | zero =>
    intro s
    simp [fitLoop, fitLoopResult, repeatTrace]
  | succ n ih =>
    intro s
    simp only [fitLoop, train_one_epoch_ok cfg _ tr htr,
      runEvalIfTruthy_some _ va hva, runEvalIfTruthy_some _ te hte, ih]
    rw [← fitLoopResult_shift]
    congr 1
    simp only [fitLoopResult, TrainerState.mk.injEq, epochMetricsUpdate,
      fitEpochBlockTrace, List.append_assoc]

/-- Closed form of a successful fit run with both a validation and a
test loader. -/
theorem fit_ok (cfg : TrainerCfg) (s : TrainerState) (tr va te : List Batch)
    (htr : 0 < sumSizes tr) (hva : 0 < sumSizes va) (hte : 0 < sumSizes te) :
    fit cfg s tr (some va) (some te)
      = Except.ok
          (recordEvent
            (fitLoopResult cfg tr va te cfg.max_epochs (recordEvent s "on_fit_start"))
            "on_fit_end") := by
  simp only [fit, fitLoop_ok cfg tr va te htr hva hte]

/-- Lookup of a key just written by setMetric. -/
theorem lookupMetric_setMetric_self (m : List (String × Rat)) (k : String) (v : Rat) :
    lookupMetric (setMetric m k v) k = some v := by
  induction m with
  | nil => simp [setMetric, lookupMetric]
  | cons p rest ih =>
    obtain ⟨k2, v2⟩ := p
    by_cases h : k2 = k
    · simp [setMetric, lookupMetric, h]
    · simp [setMetric, lookupMetric, h, ih]

/-- Lookup of a different key is unaffected by setMetric. -/
theorem lookupMetric_setMetric_other (m : List (String × Rat)) (k k2 : String) (v : Rat)
    (h : ¬ k2 = k) :
    lookupMetric (setMetric m k2 v) k = lookupMetric m k := by
  induction m with
  | nil => simp [setMetric, lookupMetric, h]
  | cons p rest ih =>
    obtain ⟨k3, v3⟩ := p
    by_cases h3 : k3 = k2
    · subst h3
      simp [setMetric, lookupMetric, h]
    · by_cases hk : k3 = k
      · have h2 : ¬ k = k2 := fun hh => h hh.symm
        simp [setMetric, lookupMetric, h3, hk, h2]
      · simp [setMetric, lookupMetric, h3, hk, ih]

/-- Counting an event inside the per-batch trace of an epoch: zero when
the event differs from both per-batch event names. -/
theorem count_batchPairTrace_eq_zero (a b e : String) (bs : List Batch)
    (ha : ¬ e = a) (hb : ¬ e = b) :
    (batchPairTrace a b bs).count e = 0 := by
  induction bs with
  | nil => rfl
  | cons c rest ih => simp [batchPairTrace, List.count_cons, ha, hb, ih]

/-- Counting an event across n concatenated copies of a trace. -/
theorem count_repeatTrace (t : List String) (e : String) :
    ∀ n : Nat, (repeatTrace t n).count e = n * t.count e := by
  intro n
  induction n with
  | zero => simp [repeatTrace]
  | succ n ih => simp [repeatTrace, List.count_append, ih, Nat.succ_mul, Nat.add_comm]

/-- Event counts inside the trace of one fit iteration: no fit events,
one training epoch, and two validation-path epochs, one from the
validation pass and one from the test pass. -/
theorem count_fitBlock (tr va te : List Batch) :
    (fitEpochBlockTrace tr va te).count "on_fit_start" = 0
    ∧ (fitEpochBlockTrace tr va te).count "on_fit_end" = 0
    ∧ (fitEpochBlockTrace tr va te).count "on_train_epoch_start" = 1
    ∧ (fitEpochBlockTrace tr va te).count "on_train_epoch_end" = 1
    ∧ (fitEpochBlockTrace tr va te).count "on_valid_epoch_start" = 2
    ∧ (fitEpochBlockTrace tr va te).count "on_valid_epoch_end" = 2 := by
  refine ⟨?_, ?_, ?_, ?_, ?_, ?_⟩ <;>
    simp [fitEpochBlockTrace, trainEpochTrace, validEpochTrace, List.count_append,
      List.count_cons, List.count_singleton, List.count_nil,
      count_batchPairTrace_eq_zero]

/-- Claim C1 fails on the code: with a scheduler configured and stepping
granularity epoch, a training epoch of two batches invokes
scheduler.step twice, once after every batch, because the per-epoch step
statement at trainer.py lines 270 to 271 is indented inside the batch
loop; the claim requires exactly one invocation, after the loop. -/
theorem C1_epoch_granularity_steps_scheduler_per_batch :
    ((train_one_epoch cfgSchedEpoch initTrainerState
        [{ size := 1, avg_loss := 1 }, { size := 1, avg_loss := 1 }]).toOption.map
      (fun p => p.1.scheduler_steps)) = some 2 := by
  decide

/-- Claim C4: running a training epoch or a validation epoch over a
batch producer that yields zero batches fails with DivisionError and
returns no loss value. -/
theorem C4_zero_batches_division_error (cfg : TrainerCfg) (s : TrainerState) :
    train_one_epoch cfg s [] = Except.error "DivisionError"
    ∧ valid_one_epoch s [] = Except.error "DivisionError" := by
  constructor <;> rfl

/-- Claim C5: fit with max_epochs epochs and both a validation and a
test producer runs exactly that many training, validation and test
epochs, interleaved train then valid then test inside each iteration,
dispatches on_fit_start exactly once before any epoch and on_fit_end
exactly once after all epochs, and returns the mutated state. The
validation-path epoch events are counted twice per epoch because the
test pass shares them. -/
theorem C5_fit_runs_E_epochs_with_fit_events_once (cfg : TrainerCfg)
    (tr va te : List Batch)
    (htr : 0 < sumSizes tr) (hva : 0 < sumSizes va) (hte : 0 < sumSizes te) :
    ∃ s2, fit cfg initTrainerState tr (some va) (some te) = Except.ok s2
      ∧ s2.events
          = "on_fit_start"
            :: (repeatTrace (fitEpochBlockTrace tr va te) cfg.max_epochs ++ ["on_fit_end"])
      ∧ s2.events.count "on_fit_start" = 1
      ∧ s2.events.count "on_fit_end" = 1
      ∧ s2.events.count "on_train_epoch_start" = cfg.max_epochs
      ∧ s2.events.count "on_valid_epoch_start" = 2 * cfg.max_epochs
      ∧ s2.epoch_index = cfg.max_epochs := by
  obtain ⟨c1, c2, c3, c4, c5, c6⟩ := count_fitBlock tr va te
  have hev : (recordEvent (fitLoopResult cfg tr va te cfg.max_epochs
        (recordEvent initTrainerState "on_fit_start")) "on_fit_end").events
      = "on_fit_start"
        :: (repeatTrace (fitEpochBlockTrace tr va te) cfg.max_epochs ++ ["on_fit_end"]) := by
    simp [recordEvent, fitLoopResult, initTrainerState]
  refine ⟨_, fit_ok cfg initTrainerState tr va te htr hva hte, hev, ?_, ?_, ?_, ?_, ?_⟩
  · rw [hev]
    simp [List.count_cons, List.count_append, count_repeatTrace, c1]
  · rw [hev]
    simp [List.count_cons, List.count_append, count_repeatTrace, c2]
  · rw [hev]
    simp [List.count_cons, List.count_append, count_repeatTrace, c3]
  · rw [hev]
    simp [List.count_cons, List.count_append, count_repeatTrace, c5, Nat.mul_comm]
  · simp [recordEvent, fitLoopResult, initTrainerState]

/-- Witness for claim C5 at a concrete two-epoch run. -/
theorem C5_fit_runs_E_epochs_witness :
    0 < sumSizes [(⟨1, 1⟩ : Batch)]
    ∧ ∃ s2, fit cfgTwoEpochs initTrainerState [⟨1, 1⟩] (some [⟨1, 1⟩]) (some [⟨1, 1⟩])
          = Except.ok s2
        ∧ s2.events.count "on_train_epoch_start" = cfgTwoEpochs.max_epochs
        ∧ s2.epoch_index = cfgTwoEpochs.max_epochs :=
  ⟨by decide, by
    obtain ⟨s2, h1, h2, h3, h4, h5, h6, h7⟩ :=
      C5_fit_runs_E_epochs_with_fit_events_once cfgTwoEpochs [⟨1, 1⟩] [⟨1, 1⟩] [⟨1, 1⟩]
        (by decide) (by decide) (by decide)
    exact ⟨s2, h1, h5, h7⟩⟩

/-- Claim C6: for every epoch over batches with positive total sample
count, each training batch contributes a total loss equal to its average
loss multiplied by its batch size, and the returned epoch average loss
is the sum of those per-batch total losses divided by the total sample
count, for the training path and the validation path alike. -/
theorem C6_size_weighted_average_law (cfg : TrainerCfg) (s : TrainerState)
    (bs : List Batch) (h : 0 < sumSizes bs) :
    (∀ b : Batch, (_train_one_batch cfg s b).2.2
        = (_train_one_batch cfg s b).2.1 * (b.size : Rat))
    ∧ (∃ s2, train_one_epoch cfg s bs
        = Except.ok (s2, sumTotalLoss bs / (sumSizes bs : Rat)))
    ∧ (∃ s3, valid_one_epoch s bs
        = Except.ok (s3, sumTotalLoss bs / (sumSizes bs : Rat))) :=
  ⟨fun b => by simp [train_one_batch_eq],
    ⟨_, train_one_epoch_ok cfg s bs h⟩,
    ⟨_, valid_one_epoch_ok s bs h⟩⟩

/-- Witness for claim C6 with two batches of different sizes: sizes 4
and 2, average losses 1 and 5/2, so the weighted epoch average is
(4 + 5) / 6 = 3/2. -/
theorem C6_size_weighted_average_witness :
    0 < sumSizes [(⟨4, 1⟩ : Batch), ⟨2, 5/2⟩]
    ∧ (∃ s2, train_one_epoch cfgTwoEpochs initTrainerState [(⟨4, 1⟩ : Batch), ⟨2, 5/2⟩]
        = Except.ok (s2, 3/2)) :=
  ⟨by decide, by
    obtain ⟨s2, h⟩ := (C6_size_weighted_average_law cfgTwoEpochs initTrainerState
      [(⟨4, 1⟩ : Batch), ⟨2, 5/2⟩] (by decide)).2.1
    refine ⟨s2, ?_⟩
    rw [h]
    norm_num [sumTotalLoss, sumSizes]⟩

/-- Claim C8: with both a validation and a test producer and at least
one epoch, the test pass of each epoch goes through the validation
evaluation path, so each fit iteration emits the validation epoch events
twice and leaves the model in eval mode, and the metric key
valid_this_epoch_average_loss ends up holding the test-pass average,
overwriting the value recorded by the validation pass of the same
epoch, while the training metric keeps the training average. -/
theorem C8_test_pass_reuses_valid_path_and_overwrites (cfg : TrainerCfg)
    (tr va te : List Batch) (hE : 0 < cfg.max_epochs)
    (htr : 0 < sumSizes tr) (hva : 0 < sumSizes va) (hte : 0 < sumSizes te) :
    ∃ s2, fit cfg initTrainerState tr (some va) (some te) = Except.ok s2
      ∧ s2.events
          = "on_fit_start"
            :: (repeatTrace (trainEpochTrace tr ++ validEpochTrace va ++ validEpochTrace te)
                cfg.max_epochs ++ ["on_fit_end"])
      ∧ lookupMetric s2.metrics_dict "valid_this_epoch_average_loss" = some (wavg te)
      ∧ lookupMetric s2.metrics_dict "train_this_epoch_average_loss" = some (wavg tr)
      ∧ s2.model_training_mode = false := by
  obtain ⟨n, hn⟩ : ∃ n, cfg.max_epochs = n + 1 := ⟨cfg.max_epochs - 1, by omega⟩
  refine ⟨_, fit_ok cfg initTrainerState tr va te htr hva hte, ?_, ?_, ?_, ?_⟩
  · simp [recordEvent, fitLoopResult, initTrainerState, fitEpochBlockTrace]
  · simp only [recordEvent, fitLoopResult]
    rw [hn, Function.iterate_succ_apply']
    simp [epochMetricsUpdate, lookupMetric_setMetric_self]
  · simp only [recordEvent, fitLoopResult]
    rw [hn, Function.iterate_succ_apply']
    simp [epochMetricsUpdate, lookupMetric_setMetric_self,
      lookupMetric_setMetric_other _ "train_this_epoch_average_loss"
        "valid_this_epoch_average_loss" _ (by decide)]
  · simp [recordEvent, fitLoopResult, hn]

/-- Witness for claim C8: two epochs, validation batches with average
loss 2 and test batches with average loss 3; the valid metric key ends
at the test value 3. -/
theorem C8_test_pass_overwrite_witness :
    0 < cfgTwoEpochs.max_epochs
    ∧ ∃ s2, fit cfgTwoEpochs initTrainerState [(⟨1, 1⟩ : Batch)] (some [⟨1, 2⟩]) (some [⟨1, 3⟩])
          = Except.ok s2
        ∧ lookupMetric s2.metrics_dict "valid_this_epoch_average_loss" = some (wavg [(⟨1, 3⟩ : Batch)])
        ∧ lookupMetric s2.metrics_dict "train_this_epoch_average_loss" = some (wavg [(⟨1, 1⟩ : Batch)]) :=
  ⟨by decide, by
    obtain ⟨s2, h1, h2, h3, h4, h5⟩ :=
      C8_test_pass_reuses_valid_path_and_overwrites cfgTwoEpochs
        [⟨1, 1⟩] [⟨1, 2⟩] [⟨1, 3⟩] (by decide) (by decide) (by decide) (by decide)
    exact ⟨s2, h1, h3, h4⟩⟩

/-- Claim C9: the epoch counter starts at 0 and rises by exactly one per
fit iteration, while the batch counter starts at 0, rises by exactly one
per training batch, is never touched by a validation or test batch or
epoch, and accumulates across the whole fit run with no per-epoch reset,
ending at max_epochs times the training batch count. -/
theorem C9_epoch_and_batch_counters (cfg : TrainerCfg) :
    initTrainerState.epoch_index = 0
    ∧ initTrainerState.batch_index = 0
    ∧ (∀ (s : TrainerState) (b : Batch),
        ((_train_one_batch cfg s b).1).batch_index = s.batch_index + 1
        ∧ ((_train_one_batch cfg s b).1).epoch_index = s.epoch_index)
    ∧ (∀ (s : TrainerState) (b : Batch),
        ((_valid_one_batch s b).1).batch_index = s.batch_index
        ∧ ((_valid_one_batch s b).1).epoch_index = s.epoch_index)
    ∧ (∀ (s : TrainerState) (bs : List Batch), 0 < sumSizes bs →
        ∃ p, train_one_epoch cfg s bs = Except.ok p
          ∧ p.1.batch_index = s.batch_index + bs.length
          ∧ p.1.epoch_index = s.epoch_index)
    ∧ (∀ (s : TrainerState) (bs : List Batch), 0 < sumSizes bs →
        ∃ p, valid_one_epoch s bs = Except.ok p
          ∧ p.1.batch_index = s.batch_index
          ∧ p.1.epoch_index = s.epoch_index)
    ∧ (∀ (tr va te : List Batch), 0 < sumSizes tr → 0 < sumSizes va → 0 < sumSizes te →
        ∃ s2, fit cfg initTrainerState tr (some va) (some te) = Except.ok s2
          ∧ s2.epoch_index = cfg.max_epochs
          ∧ s2.batch_index = cfg.max_epochs * tr.length) := by
  refine ⟨rfl, rfl, ?_, ?_, ?_, ?_, ?_⟩
  · intro s b
    constructor <;> simp [train_one_batch_eq]
  · intro s b
    constructor <;> simp [valid_one_batch_eq]
  · intro s bs h
    exact ⟨_, train_one_epoch_ok cfg s bs h, by simp, by simp⟩
  · intro s bs h
    exact ⟨_, valid_one_epoch_ok s bs h, by simp, by simp⟩
  · intro tr va te htr hva hte
    refine ⟨_, fit_ok cfg initTrainerState tr va te htr hva hte, ?_, ?_⟩
    · simp [recordEvent, fitLoopResult, initTrainerState]
    · simp [recordEvent, fitLoopResult, initTrainerState]

/-- Witness for claim C9: two epochs over one training batch of size
two end with epoch counter 2 and batch counter 2. -/
theorem C9_epoch_and_batch_counters_witness :
    0 < sumSizes [(⟨2, 1⟩ : Batch)]
    ∧ ∃ s2, fit cfgTwoEpochs initTrainerState [(⟨2, 1⟩ : Batch)]
          (some [⟨2, 1⟩]) (some [⟨2, 1⟩]) = Except.ok s2
        ∧ s2.epoch_index = 2
        ∧ s2.batch_index = 2 :=
  ⟨by decide,
    (C9_epoch_and_batch_counters cfgTwoEpochs).2.2.2.2.2.2
      [⟨2, 1⟩] [⟨2, 1⟩] [⟨2, 1⟩] (by decide) (by decide) (by decide)⟩

end OmniTrainer
